import Mathlib

/-!
# SDL3 GPU minimal example (`triangle.cpp`): a shallow embedding

The program is a set of SDL main callbacks (`SDL_AppInit`, `SDL_AppEvent`,
`SDL_AppIterate`, `SDL_AppQuit`) around one global `ApplicationContext app`,
plus two helpers (`compileGLSLtoSPIRV`, `loadShader`).

Conventions of the embedding

* Every function of the source becomes a pure function.  The global `app` is
  passed in and returned.  Calls into SDL, glslang and fmt are *recorded*, in
  program order, as a list of `Call`s (the trace); what such a call returns is
  taken from an outcome record, one field per call site, so that quantifying
  over the record quantifies over every behaviour of the libraries.
* Pointers are natural numbers, `nullptr` is `0`.
* `int`, `Sint32`, `Uint32`, `size_t` values are `Int` / `Nat`; the program does
  no arithmetic on them apart from `std::size(code) * sizeof(uint32_t)`.
* C `float` is not interpreted: the definitions are generic in a type `F` with
  the operations of class `CFloat` (conversion from and to `int`, the literals
  `0.f` and `1.f`).  Theorems hold for every such `F`.
* `std::string_view` is `List Char`.
-/

namespace Triangle

/-! ## Basic types -/

/-- Pointers: the address as a number, `0` for the null pointer. -/
abbrev Ptr := Nat

/-- The null pointer. -/
abbrev nullptr : Ptr := 0

/-- One `uint32_t` word of SPIR-V. -/
abbrev Word32 := Fin 4294967296

/-- Operations on the C type `float` that the program uses.  They are kept
uninterpreted: `ofInt` is the implicit `int → float` conversion of an
assignment, `toInt` the implicit `float → int` conversion, `zero` and `one`
the literals `0.f` (`0.0f`) and `1.f` (`1.0f`). -/
class CFloat (F : Type) where
  ofInt : Int → F
  toInt : F → Int
  zero : F
  one : F

/-- A concrete reading of `float` used to evaluate the definitions on concrete
inputs: exact integers (every `int` of magnitude below `2^24` converts to
`float` and back without change). -/
instance instCFloatInt : CFloat Int where
  ofInt := fun n => n
  toInt := fun x => x
  zero := 0
  one := 1

/-- Return value of the SDL main callbacks. -/
inductive SDL_AppResult
  | SDL_APP_CONTINUE
  | SDL_APP_SUCCESS
  | SDL_APP_FAILURE
  deriving DecidableEq

/-- Shader stages of glslang that the program names.  `EShLangVertex` is the
enumerator with value `0`, which is what `EShLanguage stage {}` yields. -/
inductive EShLanguage
  | EShLangVertex
  | EShLangFragment
  deriving DecidableEq

/-- Shader stages of SDL_gpu. -/
inductive SDL_GPUShaderStage
  | SDL_GPU_SHADERSTAGE_VERTEX
  | SDL_GPU_SHADERSTAGE_FRAGMENT
  deriving DecidableEq

/-- The type `SDL_GPUViewport`: six `float` fields. -/
structure SDL_GPUViewport (F : Type) where
  x : F
  y : F
  w : F
  h : F
  min_depth : F
  max_depth : F
  deriving DecidableEq

/-- The type `SDL_Rect`. -/
structure SDL_Rect where
  x : Int
  y : Int
  w : Int
  h : Int
  deriving DecidableEq

/-- The type `SDL_FColor`. -/
structure SDL_FColor (F : Type) where
  r : F
  g : F
  b : F
  a : F
  deriving DecidableEq

/-- Load operations of a colour target (`{}` yields `SDL_GPU_LOADOP_LOAD`). -/
inductive SDL_GPULoadOp
  | SDL_GPU_LOADOP_LOAD
  | SDL_GPU_LOADOP_CLEAR
  | SDL_GPU_LOADOP_DONT_CARE
  deriving DecidableEq

/-- Store operations of a colour target (`{}` yields `SDL_GPU_STOREOP_STORE`). -/
inductive SDL_GPUStoreOp
  | SDL_GPU_STOREOP_STORE
  | SDL_GPU_STOREOP_DONT_CARE
  deriving DecidableEq

/-- The fields of `SDL_GPUColorTargetInfo` that `SDL_AppIterate` sets; all
other fields are zero by `colorTargetInfo {}`. -/
structure SDL_GPUColorTargetInfo (F : Type) where
  texture : Ptr
  clear_color : SDL_FColor F
  load_op : SDL_GPULoadOp
  store_op : SDL_GPUStoreOp
  deriving DecidableEq

/-- The type `SDL_GPUShaderCreateInfo` as `loadShader` fills it.  `code` stands
for the pointer `std::data(code)`: the words it points to.  `stage` is `none`
when the local `shaderStage`, which is declared without an initializer, was
never assigned. -/
structure SDL_GPUShaderCreateInfo where
  code_size : Nat
  code : List Word32
  entrypoint : String
  stage : Option SDL_GPUShaderStage
  num_samplers : Nat
  num_storage_textures : Nat
  num_storage_buffers : Nat
  num_uniform_buffers : Nat
  deriving DecidableEq

/-- The fields of `SDL_GPUGraphicsPipelineCreateInfo` that `SDL_AppInit` sets
to something other than zero, and the two counts it sets to zero.
`color_target_format` is `targetDesc.format`. -/
structure SDL_GPUGraphicsPipelineCreateInfo where
  vertex_shader : Ptr
  fragment_shader : Ptr
  num_vertex_attributes : Nat
  num_vertex_buffers : Nat
  num_color_targets : Nat
  color_target_format : Nat
  deriving DecidableEq

/-- The global `ApplicationContext`. -/
structure ApplicationContext (F : Type) where
  width : Int
  height : Int
  window : Ptr
  graphicDevice : Ptr
  trianglePipeline : Ptr
  viewport : SDL_GPUViewport F
  deriving DecidableEq

/-- The global `app` at program start: the member initializers of the struct,
and a zero-initialized `viewport` (static storage). -/
def app {F : Type} [CFloat F] : ApplicationContext F :=
  { width := 1920
    height := 1080
    window := nullptr
    graphicDevice := nullptr
    trianglePipeline := nullptr
    viewport :=
      { x := CFloat.zero, y := CFloat.zero, w := CFloat.zero, h := CFloat.zero,
        min_depth := CFloat.zero, max_depth := CFloat.zero } }

/-- Events as `SDL_AppEvent` distinguishes them: `event->type` and, for a
resize, `event->window.data1` and `event->window.data2`. -/
inductive SDL_Event
  | SDL_EVENT_QUIT
  | SDL_EVENT_WINDOW_RESIZED (data1 data2 : Int)
  | other
  deriving DecidableEq

/-- The calls the program makes into glslang, SDL and fmt, with the arguments
that matter.  Constructors and destructors of glslang objects and
`GetDefaultResources()` are not recorded.  `glslang_FinalizeProcess` is part
of the glslang interface, the counterpart of `glslang::InitializeProcess`. -/
inductive Call (F : Type)
  -- glslang
  | glslang_InitializeProcess
  | glslang_FinalizeProcess
  | TShader_setStrings (source : List Char)
  | TShader_setSourceEntryPoint (name : String)
  | TShader_setEntryPoint (name : String)
  | TShader_setEnvInput (stage : EShLanguage)
  | TShader_parse (stage : EShLanguage)
  | TShader_getInfoLog
  | TProgram_addShader
  | TProgram_link
  | TProgram_getInfoLog
  | TProgram_getIntermediate (stage : EShLanguage)
  | GlslangToSpv
  -- fmt and SDL error text
  | fmt_println
  | SDL_GetError
  -- SDL, start-up
  | SDL_SetAppMetadata
  | SDL_Init
  | SDL_CreateGPUDevice
  | SDL_CreateWindow (w h : Int)
  | SDL_GetWindowSizeInPixels (window : Ptr)
  | SDL_ClaimWindowForGPUDevice (device window : Ptr)
  | SDL_LoadFile (path : List Char)
  | SDL_free
  | SDL_CreateGPUShader (device : Ptr) (info : SDL_GPUShaderCreateInfo)
  | SDL_GetGPUSwapchainTextureFormat (device window : Ptr)
  | SDL_CreateGPUGraphicsPipeline (device : Ptr) (info : SDL_GPUGraphicsPipelineCreateInfo)
  | SDL_ReleaseGPUShader (device shader : Ptr)
  -- SDL, per frame
  | SDL_AcquireGPUCommandBuffer (device : Ptr)
  | SDL_AcquireGPUSwapchainTexture (commandBuffer window : Ptr)
  | SDL_BeginGPURenderPass (commandBuffer : Ptr) (info : SDL_GPUColorTargetInfo F) (num : Nat)
  | SDL_BindGPUGraphicsPipeline (renderPass pipeline : Ptr)
  | SDL_SetGPUViewport (renderPass : Ptr) (viewport : SDL_GPUViewport F)
  | SDL_SetGPUScissor (renderPass : Ptr) (rect : SDL_Rect)
  | SDL_DrawGPUPrimitives (renderPass : Ptr) (num_vertices num_instances first_vertex first_instance : Nat)
  | SDL_EndGPURenderPass (renderPass : Ptr)
  | SDL_SubmitGPUCommandBuffer (commandBuffer : Ptr)
  -- SDL, shutdown
  | SDL_ReleaseGPUGraphicsPipeline (device pipeline : Ptr)
  | SDL_ReleaseWindowFromGPUDevice (device window : Ptr)
  | SDL_DestroyWindow (window : Ptr)
  | SDL_DestroyGPUDevice (device : Ptr)
  deriving DecidableEq

/-! ## `compileGLSLtoSPIRV` -/

/-- What the glslang calls of one run of `compileGLSLtoSPIRV` return:
`InitializeProcess()`, `shader.parse(..)`, `program.link(..)`, whether
`program.getIntermediate(stage)` is non-null, and the words that
`GlslangToSpv` appends to `sprivBin`. -/
structure GlslangOutcome where
  InitializeProcess : Bool
  parse : Bool
  link : Bool
  getIntermediate : Bool
  GlslangToSpv : List Word32
  deriving DecidableEq

/-- The function `compileGLSLtoSPIRV`: the returned vector and the trace. -/
def compileGLSLtoSPIRV {F : Type} (o : GlslangOutcome) (_name : List Char) (source : List Char)
    (stage : EShLanguage) : List Word32 × List (Call F) :=
  if !o.InitializeProcess then
    ([], [.glslang_InitializeProcess])
  else
    let setup : List (Call F) :=
      [.glslang_InitializeProcess, .TShader_setStrings source, .TShader_setSourceEntryPoint "main",
       .TShader_setEntryPoint "main", .TShader_setEnvInput stage, .TShader_parse stage]
    if !o.parse then
      ([], setup ++ [.TShader_getInfoLog, .fmt_println])
    else if !o.link then
      ([], setup ++ [.TProgram_addShader, .TProgram_link, .TProgram_getInfoLog, .fmt_println])
    else if !o.getIntermediate then
      ([], setup ++ [.TProgram_addShader, .TProgram_link, .TProgram_getIntermediate stage])
    else
      (o.GlslangToSpv,
        setup ++ [.TProgram_addShader, .TProgram_link, .TProgram_getIntermediate stage, .GlslangToSpv])

/-! ## `loadShader` -/

/-- The member `std::string_view::find_last_of(char)`: the index of the last
occurrence of `c`, `none` for `npos`. -/
def find_last_of : List Char → Char → Option Nat
  | [], _ => none
  | x :: xs, c =>
    match find_last_of xs c with
    | some i => some (i + 1)
    | none => if x = c then some 0 else none

/-- The member `std::string_view::substr(pos)` for `pos ≤ size()`. -/
def substr (s : List Char) (pos : Nat) : List Char := s.drop pos

/-- What the external calls of one run of `loadShader` return: the bytes
`SDL_LoadFile` read (`none` when it returns `NULL`, with `sourceSize` left
`0`), the glslang results, and the pointer `SDL_CreateGPUShader` returns. -/
structure LoadShaderOutcome where
  SDL_LoadFile : Option (List Char)
  glslang : GlslangOutcome
  SDL_CreateGPUShader : Ptr
  deriving DecidableEq

/-- The suffix dispatch of `loadShader` (the declarations of `stage` and
`shaderStage` and the `if` / `else if` that follows them): the values of the
two locals afterwards, for a path whose last `'.'` is at index `ext`.  There
is no final `else`: with any other suffix `stage` keeps its initial value
`EShLangVertex` and `shaderStage` is never assigned (`none`). -/
def loadShader_dispatch (shaderFilePath : List Char) (ext : Nat) :
    EShLanguage × Option SDL_GPUShaderStage :=
  if substr shaderFilePath ext = ".vert".toList then
    (.EShLangVertex, some .SDL_GPU_SHADERSTAGE_VERTEX)
  else if substr shaderFilePath ext = ".frag".toList then
    (.EShLangFragment, some .SDL_GPU_SHADERSTAGE_FRAGMENT)
  else
    (.EShLangVertex, none)

/-- The function `loadShader`: the returned pointer and the trace.  The four
counts have the default argument `0` in the source; callers that omit them
pass `0 0 0 0` here.  The product `std::size(code) * sizeof(uint32_t)` is the
size in bytes of the vector's storage and cannot wrap in `size_t`. -/
def loadShader {F : Type} (o : LoadShaderOutcome) (device : Ptr) (shaderFilePath : List Char)
    (samplerCount uniformBufferCount storageBufferCount storageTextureCount : Nat) :
    Ptr × List (Call F) :=
  match find_last_of shaderFilePath '.' with
  | none => (nullptr, [])
  | some ext =>
    let (stage, shaderStage) := loadShader_dispatch shaderFilePath ext
    let source := o.SDL_LoadFile.getD []
    let (code, compileTrace) := compileGLSLtoSPIRV o.glslang shaderFilePath source stage
    let t1 : List (Call F) := [Call.SDL_LoadFile shaderFilePath] ++ compileTrace ++ [Call.SDL_free]
    if code.isEmpty then
      (nullptr, t1 ++ [.fmt_println])
    else
      let shaderInfo : SDL_GPUShaderCreateInfo :=
        { code_size := code.length * 4
          code := code
          entrypoint := "main"
          stage := shaderStage
          num_samplers := samplerCount
          num_storage_textures := storageTextureCount
          num_storage_buffers := storageBufferCount
          num_uniform_buffers := uniformBufferCount }
      let shader := o.SDL_CreateGPUShader
      if shader ≠ nullptr then
        (shader, t1 ++ [.SDL_CreateGPUShader device shaderInfo])
      else
        (nullptr, t1 ++ [.SDL_CreateGPUShader device shaderInfo, .fmt_println])

/-! ## `SDL_AppInit` -/

/-- What the external calls of one run of `SDL_AppInit` return.  `pixels_w` and
`pixels_h` are the values `SDL_GetWindowSizeInPixels` stores through `&w` and
`&h` (`0` when it stores nothing, as both locals start at `0`). -/
structure InitOutcome where
  SDL_Init : Bool
  SDL_CreateGPUDevice : Ptr
  SDL_CreateWindow : Ptr
  pixels_w : Int
  pixels_h : Int
  SDL_ClaimWindowForGPUDevice : Bool
  vertexShader : LoadShaderOutcome
  fragmentShader : LoadShaderOutcome
  SDL_GetGPUSwapchainTextureFormat : Nat
  SDL_CreateGPUGraphicsPipeline : Ptr
  deriving DecidableEq

/-- The callback `SDL_AppInit`: result, the global `app` afterwards, trace. -/
def SDL_AppInit {F : Type} [CFloat F] (o : InitOutcome) (app : ApplicationContext F) :
    SDL_AppResult × ApplicationContext F × List (Call F) :=
  let t0 : List (Call F) := [.SDL_SetAppMetadata, .SDL_Init]
  if !o.SDL_Init then
    (.SDL_APP_FAILURE, app, t0 ++ [.SDL_GetError, .fmt_println])
  else
    let app := { app with graphicDevice := o.SDL_CreateGPUDevice }
    let t1 := t0 ++ [.SDL_CreateGPUDevice]
    if app.graphicDevice = nullptr then
      (.SDL_APP_FAILURE, app, t1 ++ [.SDL_GetError, .fmt_println])
    else
      let t2 := t1 ++ [.SDL_CreateWindow app.width app.height]
      let app := { app with window := o.SDL_CreateWindow }
      if app.window = nullptr then
        (.SDL_APP_FAILURE, app, t2 ++ [.SDL_GetError, .fmt_println])
      else
        let w := o.pixels_w
        let h := o.pixels_h
        let t3 := t2 ++ [.SDL_GetWindowSizeInPixels app.window]
        let app := { app with viewport :=
          { x := CFloat.ofInt 0, y := CFloat.ofInt 0, w := CFloat.ofInt w, h := CFloat.ofInt h,
            min_depth := CFloat.zero, max_depth := CFloat.one } }
        let t4 := t3 ++ [.SDL_ClaimWindowForGPUDevice app.graphicDevice app.window]
        if !o.SDL_ClaimWindowForGPUDevice then
          (.SDL_APP_FAILURE, app, t4 ++ [.SDL_GetError, .fmt_println])
        else
          let (vertexShader, tv) :=
            loadShader o.vertexShader app.graphicDevice "../shaders/BasicTriangle.vert".toList 0 0 0 0
          let t5 := t4 ++ tv
          if vertexShader = nullptr then
            (.SDL_APP_FAILURE, app, t5 ++ [.fmt_println])
          else
            let (fragmentShader, tf) :=
              loadShader o.fragmentShader app.graphicDevice "../shaders/Basic.frag".toList 0 0 0 0
            let t6 := t5 ++ tf
            if fragmentShader = nullptr then
              (.SDL_APP_FAILURE, app, t6 ++ [.fmt_println])
            else
              let pipelineCreateInfo : SDL_GPUGraphicsPipelineCreateInfo :=
                { vertex_shader := vertexShader
                  fragment_shader := fragmentShader
                  num_vertex_attributes := 0
                  num_vertex_buffers := 0
                  num_color_targets := 1
                  color_target_format := o.SDL_GetGPUSwapchainTextureFormat }
              let t7 := t6 ++ [.SDL_GetGPUSwapchainTextureFormat app.graphicDevice app.window,
                .SDL_CreateGPUGraphicsPipeline app.graphicDevice pipelineCreateInfo]
              let app := { app with trianglePipeline := o.SDL_CreateGPUGraphicsPipeline }
              if app.trianglePipeline = nullptr then
                (.SDL_APP_FAILURE, app, t7 ++ [.fmt_println])
              else
                (.SDL_APP_CONTINUE, app,
                  t7 ++ [.SDL_ReleaseGPUShader app.graphicDevice vertexShader,
                    .SDL_ReleaseGPUShader app.graphicDevice fragmentShader])

/-! ## `SDL_AppEvent` -/

/-- The callback `SDL_AppEvent`: result and the global `app` afterwards.  It
makes no external call. -/
def SDL_AppEvent {F : Type} [CFloat F] (app : ApplicationContext F) (event : SDL_Event) :
    SDL_AppResult × ApplicationContext F :=
  match event with
  | .SDL_EVENT_QUIT => (.SDL_APP_SUCCESS, app)
  | .SDL_EVENT_WINDOW_RESIZED data1 data2 =>
    if app.width ≠ data1 ∨ app.height ≠ data2 then
      let app := { app with width := data1 }
      let app := { app with height := data2 }
      let app := { app with viewport := { app.viewport with w := CFloat.ofInt app.width } }
      let app := { app with viewport := { app.viewport with h := CFloat.ofInt app.height } }
      (.SDL_APP_CONTINUE, app)
    else
      (.SDL_APP_CONTINUE, app)
  | .other => (.SDL_APP_CONTINUE, app)

/-- The way SDL drives `SDL_AppEvent`: the events are handed over one by one
for as long as the callback returns `SDL_APP_CONTINUE`. -/
def handleEvents {F : Type} [CFloat F] (app : ApplicationContext F) :
    List SDL_Event → ApplicationContext F
  | [] => app
  | e :: es =>
    match SDL_AppEvent app e with
    | (.SDL_APP_CONTINUE, app1) => handleEvents app1 es
    | (_, app1) => app1

/-! ## `SDL_AppIterate` -/

/-- What the external calls of one run of `SDL_AppIterate` return.
`swapchainTexture` is the pointer `SDL_AcquireGPUSwapchainTexture` stores
through `&swapchainTexture`. -/
structure IterateOutcome where
  SDL_AcquireGPUCommandBuffer : Ptr
  SDL_AcquireGPUSwapchainTexture : Bool
  swapchainTexture : Ptr
  SDL_BeginGPURenderPass : Ptr
  deriving DecidableEq

/-- The callback `SDL_AppIterate`: result and trace (`app` is only read). -/
def SDL_AppIterate {F : Type} [CFloat F] (o : IterateOutcome) (app : ApplicationContext F) :
    SDL_AppResult × List (Call F) :=
  let commandBuffer := o.SDL_AcquireGPUCommandBuffer
  let t0 : List (Call F) := [.SDL_AcquireGPUCommandBuffer app.graphicDevice]
  if commandBuffer = nullptr then
    (.SDL_APP_FAILURE, t0 ++ [.SDL_GetError, .fmt_println])
  else
    let t1 := t0 ++ [.SDL_AcquireGPUSwapchainTexture commandBuffer app.window]
    if !o.SDL_AcquireGPUSwapchainTexture then
      (.SDL_APP_FAILURE, t1 ++ [.SDL_GetError, .fmt_println])
    else
      let swapchainTexture := o.swapchainTexture
      let t2 : List (Call F) :=
        if swapchainTexture ≠ nullptr then
          let colorTargetInfo : SDL_GPUColorTargetInfo F :=
            { texture := swapchainTexture
              clear_color := { r := CFloat.zero, g := CFloat.zero, b := CFloat.zero, a := CFloat.one }
              load_op := .SDL_GPU_LOADOP_CLEAR
              store_op := .SDL_GPU_STOREOP_STORE }
          let scissorRect : SDL_Rect :=
            { x := 0, y := 0, w := CFloat.toInt app.viewport.w, h := CFloat.toInt app.viewport.h }
          let renderPass := o.SDL_BeginGPURenderPass
          t1 ++ [.SDL_BeginGPURenderPass commandBuffer colorTargetInfo 1,
            .SDL_BindGPUGraphicsPipeline renderPass app.trianglePipeline,
            .SDL_SetGPUViewport renderPass app.viewport,
            .SDL_SetGPUScissor renderPass scissorRect,
            .SDL_DrawGPUPrimitives renderPass 3 1 0 0,
            .SDL_EndGPURenderPass renderPass]
        else t1
      (.SDL_APP_CONTINUE, t2 ++ [.SDL_SubmitGPUCommandBuffer commandBuffer])

/-! ## `SDL_AppQuit` -/

/-- The callback `SDL_AppQuit`: its trace (`app` is only read). -/
def SDL_AppQuit {F : Type} (app : ApplicationContext F) : List (Call F) :=
  [.SDL_ReleaseGPUGraphicsPipeline app.graphicDevice app.trianglePipeline,
   .SDL_ReleaseWindowFromGPUDevice app.graphicDevice app.window,
   .SDL_DestroyWindow app.window,
   .SDL_DestroyGPUDevice app.graphicDevice]

/-! ## Predicates on calls -/

/-- Is the call `SDL_SubmitGPUCommandBuffer` on this command buffer? -/
def Call.isSubmit {F : Type} (commandBuffer : Ptr) : Call F → Bool
  | .SDL_SubmitGPUCommandBuffer c => c == commandBuffer
  | _ => false

/-- Is the call `SDL_BeginGPURenderPass`? -/
def Call.isBeginRenderPass {F : Type} : Call F → Bool
  | .SDL_BeginGPURenderPass _ _ _ => true
  | _ => false

/-- Is the call `SDL_DrawGPUPrimitives`? -/
def Call.isDraw {F : Type} : Call F → Bool
  | .SDL_DrawGPUPrimitives _ _ _ _ _ => true
  | _ => false

/-- Is the call `SDL_ReleaseGPUGraphicsPipeline`? -/
def Call.isReleasePipeline {F : Type} : Call F → Bool
  | .SDL_ReleaseGPUGraphicsPipeline _ _ => true
  | _ => false

/-- Is the call `SDL_DestroyGPUDevice`? -/
def Call.isDestroyDevice {F : Type} : Call F → Bool
  | .SDL_DestroyGPUDevice _ => true
  | _ => false

/-- Is the call `SDL_CreateGPUGraphicsPipeline`? -/
def Call.isCreatePipeline {F : Type} : Call F → Bool
  | .SDL_CreateGPUGraphicsPipeline _ _ => true
  | _ => false

/-- Is the call `SDL_CreateGPUShader`? -/
def Call.isCreateShader {F : Type} : Call F → Bool
  | .SDL_CreateGPUShader _ _ => true
  | _ => false

/-! ## Notions used in the statements -/

/-- The path of the first `loadShader` call of `SDL_AppInit`. -/
def vertexPath : List Char := "../shaders/BasicTriangle.vert".toList

/-- The path of the second `loadShader` call of `SDL_AppInit`. -/
def fragmentPath : List Char := "../shaders/Basic.frag".toList

/-- The vector that the `compileGLSLtoSPIRV` call inside `loadShader` returns,
for the outcome `o`, the path and the stage handed to it.  The compilation
succeeds when it is non-empty. -/
def compiledCode (o : LoadShaderOutcome) (path : List Char) (stage : EShLanguage) : List Word32 :=
  (compileGLSLtoSPIRV o.glslang path (o.SDL_LoadFile.getD []) stage :
    List Word32 × List (Call Unit)).1

/-! ## Concrete inputs -/

/-- A glslang run in which every step succeeds and two words are produced. -/
def okGlslang : GlslangOutcome :=
  { InitializeProcess := true, parse := true, link := true, getIntermediate := true,
    GlslangToSpv := [119734787, 65536] }

/-- A `loadShader` run in which every external call succeeds. -/
def okLoad : LoadShaderOutcome :=
  { SDL_LoadFile := some "#version 450".toList, glslang := okGlslang, SDL_CreateGPUShader := 31 }

/-- An `SDL_AppInit` run in which every external call succeeds and the window
has the requested size in pixels. -/
def okInit : InitOutcome :=
  { SDL_Init := true
    SDL_CreateGPUDevice := 12
    SDL_CreateWindow := 11
    pixels_w := 1920
    pixels_h := 1080
    SDL_ClaimWindowForGPUDevice := true
    vertexShader := okLoad
    fragmentShader := { okLoad with SDL_CreateGPUShader := 32 }
    SDL_GetGPUSwapchainTextureFormat := 12
    SDL_CreateGPUGraphicsPipeline := 13 }

/-- As `okInit`, but `SDL_CreateGPUGraphicsPipeline` returns null. -/
def noPipelineInit : InitOutcome := { okInit with SDL_CreateGPUGraphicsPipeline := nullptr }

/-- As `okInit`, but `SDL_CreateGPUShader` returns null for the vertex shader. -/
def noVertexShaderInit : InitOutcome :=
  { okInit with vertexShader := { okLoad with SDL_CreateGPUShader := nullptr } }

/-- As `okInit`, but `SDL_CreateGPUShader` returns null for the fragment shader. -/
def noFragmentShaderInit : InitOutcome :=
  { okInit with fragmentShader := { okLoad with SDL_CreateGPUShader := nullptr } }

/-- As `okInit`, but the window reports a size of 1280 x 720 pixels. -/
def smallWindowInit : InitOutcome := { okInit with pixels_w := 1280, pixels_h := 720 }

/-- A state with size `(1920, 1080)`, depth range `(0.0, 1.0)` and some
handles. -/
def resizeExample : ApplicationContext Int :=
  { width := 1920
    height := 1080
    window := 11
    graphicDevice := 12
    trianglePipeline := 13
    viewport := { x := 0, y := 0, w := 1920, h := 1080, min_depth := 0, max_depth := 1 } }

/-- A frame in which every device call succeeds. -/
def frameOutcome : IterateOutcome :=
  { SDL_AcquireGPUCommandBuffer := 21
    SDL_AcquireGPUSwapchainTexture := true
    swapchainTexture := 22
    SDL_BeginGPURenderPass := 23 }

/-- A frame in which the swapchain yields no texture. -/
def noImageOutcome : IterateOutcome :=
  { SDL_AcquireGPUCommandBuffer := 21
    SDL_AcquireGPUSwapchainTexture := true
    swapchainTexture := nullptr
    SDL_BeginGPURenderPass := 23 }

/-- A frame in which `SDL_AcquireGPUSwapchainTexture` reports failure. -/
def swapchainFailure : IterateOutcome :=
  { SDL_AcquireGPUCommandBuffer := 21
    SDL_AcquireGPUSwapchainTexture := false
    swapchainTexture := nullptr
    SDL_BeginGPURenderPass := 23 }

/-! ## Lemmas on `compileGLSLtoSPIRV` and `loadShader` -/

/-- Every trace of `compileGLSLtoSPIRV` starts with `InitializeProcess`, which
is not called again, and `FinalizeProcess` is not in it. -/
theorem compileGLSLtoSPIRV_trace {F : Type} (o : GlslangOutcome) (name source : List Char)
    (stage : EShLanguage) :
    ∃ rest : List (Call F),
      (compileGLSLtoSPIRV o name source stage).2 = Call.glslang_InitializeProcess :: rest
      ∧ Call.glslang_InitializeProcess ∉ rest
      ∧ Call.glslang_FinalizeProcess ∉ rest := by
  unfold compileGLSLtoSPIRV
  cases o.InitializeProcess <;> cases o.parse <;> cases o.link <;> cases o.getIntermediate <;> simp

/-- The vector `compileGLSLtoSPIRV` returns: the words of `GlslangToSpv` when
all four glslang steps succeed, the empty vector otherwise. -/
theorem compileGLSLtoSPIRV_fst {F : Type} (o : GlslangOutcome) (name source : List Char)
    (stage : EShLanguage) :
    (compileGLSLtoSPIRV o name source stage : List Word32 × List (Call F)).1
      = if o.InitializeProcess && o.parse && o.link && o.getIntermediate then o.GlslangToSpv
        else [] := by
  unfold compileGLSLtoSPIRV
  cases o.InitializeProcess <;> cases o.parse <;> cases o.link <;> cases o.getIntermediate <;> simp

/-- The returned vector does not depend on the type of the trace. -/
theorem compiledCode_eq {F : Type} (o : LoadShaderOutcome) (path : List Char) (stage : EShLanguage) :
    (compileGLSLtoSPIRV o.glslang path (o.SDL_LoadFile.getD []) stage : List Word32 × List (Call F)).1
      = compiledCode o path stage := by
  rw [compiledCode, compileGLSLtoSPIRV_fst, compileGLSLtoSPIRV_fst]

/-- The compiler creates neither shaders nor pipelines. -/
theorem compileGLSLtoSPIRV_no_create {F : Type} (o : GlslangOutcome) (name source : List Char)
    (stage : EShLanguage) :
    (compileGLSLtoSPIRV o name source stage : List Word32 × List (Call F)).2.countP
        Call.isCreateShader = 0
    ∧ (compileGLSLtoSPIRV o name source stage : List Word32 × List (Call F)).2.countP
        Call.isCreatePipeline = 0 := by
  unfold compileGLSLtoSPIRV
  cases o.InitializeProcess <;> cases o.parse <;> cases o.link <;> cases o.getIntermediate <;>
    simp [List.countP_cons, Call.isCreateShader, Call.isCreatePipeline]

/-- Without an occurrence of `c` the search yields `npos`. -/
theorem find_last_of_eq_none {s : List Char} {c : Char} (h : c ∉ s) : find_last_of s c = none := by
  induction s with
  | nil => rfl
  | cons x xs ih =>
    have hx : ¬ x = c := fun e => h (by simp [e])
    have hxs : c ∉ xs := fun e => h (by simp [e])
    simp [find_last_of, ih hxs, hx]

/-- The index of an occurrence of `c` that is followed by no other. -/
theorem find_last_of_append (p r : List Char) (c : Char) (h : c ∉ r) :
    find_last_of (p ++ c :: r) c = some p.length := by
  induction p with
  | nil => simp [find_last_of, find_last_of_eq_none h]
  | cons x xs ih => simp [find_last_of, ih]

/-- What `loadShader` does on a path that has a `'.'`, in one equation. -/
theorem loadShader_eq {F : Type} (o : LoadShaderOutcome) (device : Ptr) (path : List Char)
    (a b c d ext : Nat) (h : find_last_of path '.' = some ext) :
    (loadShader o device path a b c d : Ptr × List (Call F)) =
      if compiledCode o path (loadShader_dispatch path ext).1 = [] then
        (nullptr, [Call.SDL_LoadFile path]
          ++ (compileGLSLtoSPIRV o.glslang path (o.SDL_LoadFile.getD [])
                (loadShader_dispatch path ext).1).2
          ++ [Call.SDL_free, Call.fmt_println])
      else
        (o.SDL_CreateGPUShader, [Call.SDL_LoadFile path]
          ++ (compileGLSLtoSPIRV o.glslang path (o.SDL_LoadFile.getD [])
                (loadShader_dispatch path ext).1).2
          ++ [Call.SDL_free,
              Call.SDL_CreateGPUShader device
                { code_size := (compiledCode o path (loadShader_dispatch path ext).1).length * 4
                  code := compiledCode o path (loadShader_dispatch path ext).1
                  entrypoint := "main"
                  stage := (loadShader_dispatch path ext).2
                  num_samplers := a
                  num_storage_textures := d
                  num_storage_buffers := c
                  num_uniform_buffers := b }]
          ++ (if o.SDL_CreateGPUShader ≠ nullptr then [] else [Call.fmt_println])) := by
  simp only [loadShader, h]
  rw [← compiledCode_eq (F := F)]
  split_ifs <;> simp_all

/-- The pointer `loadShader` returns on a path that has a `'.'`. -/
theorem loadShader_fst {F : Type} (o : LoadShaderOutcome) (device : Ptr) (path : List Char)
    (a b c d ext : Nat) (h : find_last_of path '.' = some ext) :
    (loadShader o device path a b c d : Ptr × List (Call F)).1
      = if compiledCode o path (loadShader_dispatch path ext).1 = [] then nullptr
        else o.SDL_CreateGPUShader := by
  rw [loadShader_eq o device path a b c d ext h]
  split_ifs <;> rfl

/-- The function `loadShader` creates no pipeline. -/
theorem loadShader_countP_pipeline {F : Type} (o : LoadShaderOutcome) (device : Ptr)
    (path : List Char) (a b c d : Nat) :
    (loadShader o device path a b c d : Ptr × List (Call F)).2.countP Call.isCreatePipeline = 0 := by
  cases h : find_last_of path '.' with
  | none => simp [loadShader, h]
  | some ext =>
    rw [loadShader_eq o device path a b c d ext h]
    have hc := (compileGLSLtoSPIRV_no_create (F := F) o.glslang path (o.SDL_LoadFile.getD [])
      (loadShader_dispatch path ext).1).2
    split_ifs <;> simp [List.countP_append, List.countP_cons, Call.isCreatePipeline, hc]

/-- The suffix dispatch on the vertex shader path of `SDL_AppInit`. -/
theorem vertexPath_dispatch :
    find_last_of vertexPath '.' = some 24
    ∧ loadShader_dispatch vertexPath 24
        = (EShLanguage.EShLangVertex, some SDL_GPUShaderStage.SDL_GPU_SHADERSTAGE_VERTEX) := by
  decide

/-- The suffix dispatch on the fragment shader path of `SDL_AppInit`. -/
theorem fragmentPath_dispatch :
    find_last_of fragmentPath '.' = some 16
    ∧ loadShader_dispatch fragmentPath 16
        = (EShLanguage.EShLangFragment, some SDL_GPUShaderStage.SDL_GPU_SHADERSTAGE_FRAGMENT) := by
  decide

/-- A path without any `'.'`: `loadShader` returns null and calls nothing. -/
theorem loadShader_no_dot {F : Type} (o : LoadShaderOutcome) (device : Ptr) (path : List Char)
    (a b c d : Nat) (h : '.' ∉ path) :
    (loadShader o device path a b c d : Ptr × List (Call F)) = (nullptr, []) := by
  simp [loadShader, find_last_of_eq_none h]

/-- A path ending in `.vert` is dispatched to the vertex stage. -/
theorem loadShader_dispatch_vert (p : List Char) :
    find_last_of (p ++ ".vert".toList) '.' = some p.length
    ∧ loadShader_dispatch (p ++ ".vert".toList) p.length
        = (EShLanguage.EShLangVertex, some SDL_GPUShaderStage.SDL_GPU_SHADERSTAGE_VERTEX) := by
  have e : ".vert".toList = '.' :: "vert".toList := rfl
  have hn : '.' ∉ "vert".toList := by decide
  refine ⟨by rw [e]; exact find_last_of_append p _ '.' hn, ?_⟩
  simp [loadShader_dispatch, substr]

/-- A path ending in `.frag` is dispatched to the fragment stage. -/
theorem loadShader_dispatch_frag (p : List Char) :
    find_last_of (p ++ ".frag".toList) '.' = some p.length
    ∧ loadShader_dispatch (p ++ ".frag".toList) p.length
        = (EShLanguage.EShLangFragment, some SDL_GPUShaderStage.SDL_GPU_SHADERSTAGE_FRAGMENT) := by
  have e : ".frag".toList = '.' :: "frag".toList := rfl
  have hn : '.' ∉ "frag".toList := by decide
  refine ⟨by rw [e]; exact find_last_of_append p _ '.' hn, ?_⟩
  have hne : ¬ ".frag".toList = ".vert".toList := by decide
  simp [loadShader_dispatch, substr, hne]

/-- Whatever the path: a creation info that `loadShader` hands to
`SDL_CreateGPUShader` carries the non-empty vector the compiler returned,
its size in bytes, the entry point `main`, the requested counts, and for
`stage` the value of the local `shaderStage` after the suffix dispatch. -/
theorem loadShader_create_info {F : Type} (o : LoadShaderOutcome) (device : Ptr) (path : List Char)
    (a b c d : Nat) (dev : Ptr) (info : SDL_GPUShaderCreateInfo)
    (h : Call.SDL_CreateGPUShader dev info ∈
      (loadShader o device path a b c d : Ptr × List (Call F)).2) :
    info.code ≠ [] ∧ info.code_size = 4 * info.code.length ∧ info.entrypoint = "main"
    ∧ info.num_samplers = a ∧ info.num_uniform_buffers = b ∧ info.num_storage_buffers = c
    ∧ info.num_storage_textures = d ∧ dev = device
    ∧ ∃ ext, find_last_of path '.' = some ext
        ∧ info.stage = (loadShader_dispatch path ext).2
        ∧ info.code = compiledCode o path (loadShader_dispatch path ext).1 := by
  cases hf : find_last_of path '.' with
  | none => simp [loadShader, hf] at h
  | some ext =>
    rw [loadShader_eq o device path a b c d ext hf] at h
    have hc := (compileGLSLtoSPIRV_no_create (F := F) o.glslang path (o.SDL_LoadFile.getD [])
      (loadShader_dispatch path ext).1).1
    have hnot : Call.SDL_CreateGPUShader dev info ∉
        (compileGLSLtoSPIRV o.glslang path (o.SDL_LoadFile.getD [])
          (loadShader_dispatch path ext).1 : List Word32 × List (Call F)).2 := by
      intro hm
      have := (List.countP_eq_zero.1 hc) _ hm
      simp [Call.isCreateShader] at this
    by_cases hcode : compiledCode o path (loadShader_dispatch path ext).1 = []
    · rw [if_pos hcode] at h
      simp [hnot] at h
    · rw [if_neg hcode] at h
      have h2 : (Call.SDL_CreateGPUShader dev info : Call F) = Call.SDL_CreateGPUShader device
          { code_size := (compiledCode o path (loadShader_dispatch path ext).1).length * 4
            code := compiledCode o path (loadShader_dispatch path ext).1
            entrypoint := "main"
            stage := (loadShader_dispatch path ext).2
            num_samplers := a
            num_storage_textures := d
            num_storage_buffers := c
            num_uniform_buffers := b } := by
        by_cases hs : o.SDL_CreateGPUShader = nullptr
        · simpa [hnot, hs] using h
        · simpa [hnot, hs] using h
      injection h2 with h3 h4
      subst h3 h4
      exact ⟨hcode, by simp [Nat.mul_comm], rfl, rfl, rfl, rfl, rfl, rfl, ext, rfl, rfl, rfl⟩

/-- When the compiler returns the empty vector, `loadShader` returns null and
does not call `SDL_CreateGPUShader`. -/
theorem loadShader_empty_code {F : Type} (o : LoadShaderOutcome) (device : Ptr) (path : List Char)
    (a b c d ext : Nat) (h : find_last_of path '.' = some ext)
    (hcode : compiledCode o path (loadShader_dispatch path ext).1 = []) :
    (loadShader o device path a b c d : Ptr × List (Call F)).1 = nullptr
    ∧ (loadShader o device path a b c d : Ptr × List (Call F)).2.countP Call.isCreateShader = 0 := by
  rw [loadShader_eq o device path a b c d ext h, if_pos hcode]
  have hc := (compileGLSLtoSPIRV_no_create (F := F) o.glslang path (o.SDL_LoadFile.getD [])
    (loadShader_dispatch path ext).1).1
  simp [List.countP_append, List.countP_cons, Call.isCreateShader, hc]

/-- The resize handler keeps the viewport in step with `width`/`height` once
they agree: from a state whose viewport `w`/`h` are the conversions of
`width`/`height`, a resize notification leaves the viewport `w`/`h` at the
conversions of the notified dimensions. -/
theorem SDL_AppEvent_resize_mirror {F : Type} [CFloat F] (s : ApplicationContext F)
    (data1 data2 : Int)
    (hw : s.viewport.w = CFloat.ofInt s.width) (hh : s.viewport.h = CFloat.ofInt s.height) :
    (SDL_AppEvent s (SDL_Event.SDL_EVENT_WINDOW_RESIZED data1 data2)).2.viewport.w
        = CFloat.ofInt data1
    ∧ (SDL_AppEvent s (SDL_Event.SDL_EVENT_WINDOW_RESIZED data1 data2)).2.viewport.h
        = CFloat.ofInt data2
    ∧ (SDL_AppEvent s (SDL_Event.SDL_EVENT_WINDOW_RESIZED data1 data2)).2.width = data1
    ∧ (SDL_AppEvent s (SDL_Event.SDL_EVENT_WINDOW_RESIZED data1 data2)).2.height = data2 := by
  unfold SDL_AppEvent
  by_cases h : s.width ≠ data1 ∨ s.height ≠ data2
  · simp [h]
  · have h1 : s.width = data1 := by
      by_contra hne
      exact h (Or.inl hne)
    have h2 : s.height = data2 := by
      by_contra hne
      exact h (Or.inr hne)
    simp [h1, h2, hw, hh]

/-! ## The claims -/

/-- C1, evaluated at the path `x.glsl`.  The path has a `'.'` and its suffix
is neither `.vert` nor `.frag`; all the same, for every outcome of the
external calls `loadShader` invokes the compiler (its trace contains
`glslang::InitializeProcess`), and when compilation and shader creation
succeed it returns the non-null shader and has called `SDL_CreateGPUShader`
once. -/
theorem C1_unknown_suffix_is_compiled {F : Type} (o : LoadShaderOutcome) (device : Ptr)
    (a b c d : Nat) :
    Call.glslang_InitializeProcess ∈
      (loadShader o device "x.glsl".toList a b c d : Ptr × List (Call F)).2
    ∧ (loadShader okLoad 12 "x.glsl".toList 0 0 0 0 : Ptr × List (Call Int)).1 = 31
    ∧ (loadShader okLoad 12 "x.glsl".toList 0 0 0 0 : Ptr × List (Call Int)).2.countP
        Call.isCreateShader = 1 := by
  refine ⟨?_, by decide, by decide⟩
  have h : find_last_of "x.glsl".toList '.' = some 1 := by decide
  obtain ⟨rest, hr, -, -⟩ := compileGLSLtoSPIRV_trace (F := F) o.glslang "x.glsl".toList
    (o.SDL_LoadFile.getD []) (loadShader_dispatch "x.glsl".toList 1).1
  rw [loadShader_eq o device "x.glsl".toList a b c d 1 h, hr]
  split_ifs <;> simp

/-- C2, amended.  With `SDL_Init`, device creation, window creation and the
window claim succeeding: `SDL_CreateGPUGraphicsPipeline` is called and its
non-null result stored in `app.trianglePipeline` if and only if both
compilations return non-empty bytecode, both `SDL_CreateGPUShader` calls
return non-null and `SDL_CreateGPUGraphicsPipeline` returns non-null.  If
either compilation returns empty bytecode, `SDL_CreateGPUGraphicsPipeline`
is never called and `SDL_AppInit` returns `SDL_APP_FAILURE`. -/
theorem C2_pipeline_iff {F : Type} [CFloat F] (o : InitOutcome) (s : ApplicationContext F)
    (hinit : o.SDL_Init = true)
    (hdev : o.SDL_CreateGPUDevice ≠ nullptr)
    (hwin : o.SDL_CreateWindow ≠ nullptr)
    (hclaim : o.SDL_ClaimWindowForGPUDevice = true) :
    (((SDL_AppInit o s).2.2.countP Call.isCreatePipeline = 1
        ∧ (SDL_AppInit o s).2.1.trianglePipeline = o.SDL_CreateGPUGraphicsPipeline
        ∧ (SDL_AppInit o s).2.1.trianglePipeline ≠ nullptr)
      ↔ (compiledCode o.vertexShader vertexPath EShLanguage.EShLangVertex ≠ []
          ∧ compiledCode o.fragmentShader fragmentPath EShLanguage.EShLangFragment ≠ []
          ∧ o.vertexShader.SDL_CreateGPUShader ≠ nullptr
          ∧ o.fragmentShader.SDL_CreateGPUShader ≠ nullptr
          ∧ o.SDL_CreateGPUGraphicsPipeline ≠ nullptr))
    ∧ ((compiledCode o.vertexShader vertexPath EShLanguage.EShLangVertex = []
          ∨ compiledCode o.fragmentShader fragmentPath EShLanguage.EShLangFragment = []) →
        (SDL_AppInit o s).2.2.countP Call.isCreatePipeline = 0
        ∧ (SDL_AppInit o s).1 = SDL_AppResult.SDL_APP_FAILURE) := by
  have hv1 := loadShader_fst (F := F) o.vertexShader o.SDL_CreateGPUDevice vertexPath 0 0 0 0 24
    vertexPath_dispatch.1
  have hv2 := loadShader_countP_pipeline (F := F) o.vertexShader o.SDL_CreateGPUDevice vertexPath 0 0 0 0
  have hf1 := loadShader_fst (F := F) o.fragmentShader o.SDL_CreateGPUDevice fragmentPath 0 0 0 0 16
    fragmentPath_dispatch.1
  have hf2 := loadShader_countP_pipeline (F := F) o.fragmentShader o.SDL_CreateGPUDevice fragmentPath 0 0 0 0
  rw [vertexPath_dispatch.2] at hv1
  rw [fragmentPath_dispatch.2] at hf1
  rcases hlv : (loadShader o.vertexShader o.SDL_CreateGPUDevice vertexPath
    0 0 0 0 : Ptr × List (Call F)) with ⟨pv, tv⟩
  rcases hlf : (loadShader o.fragmentShader o.SDL_CreateGPUDevice fragmentPath
    0 0 0 0 : Ptr × List (Call F)) with ⟨pf, tf⟩
  rw [hlv] at hv1 hv2
  rw [hlf] at hf1 hf2
  simp only at hv1 hv2 hf1 hf2
  have hlv1 : (loadShader o.vertexShader o.SDL_CreateGPUDevice "../shaders/BasicTriangle.vert".toList
    0 0 0 0 : Ptr × List (Call F)) = (pv, tv) := hlv
  have hlf1 : (loadShader o.fragmentShader o.SDL_CreateGPUDevice "../shaders/Basic.frag".toList
    0 0 0 0 : Ptr × List (Call F)) = (pf, tf) := hlf
  have hdev0 : ¬ o.SDL_CreateGPUDevice = nullptr := hdev
  have hwin0 : ¬ o.SDL_CreateWindow = nullptr := hwin
  simp only [SDL_AppInit, hinit, hclaim, hlv1, hlf1, if_neg hdev0,
    if_neg hwin0, Bool.not_true, Bool.false_eq_true, if_false]
  by_cases hcv : compiledCode o.vertexShader vertexPath EShLanguage.EShLangVertex = []
  · rw [if_pos hcv] at hv1
    subst hv1
    simp [hcv, hv2, List.countP_append, List.countP_cons, Call.isCreatePipeline]
  · rw [if_neg hcv] at hv1
    subst hv1
    by_cases hpv : o.vertexShader.SDL_CreateGPUShader = nullptr
    · simp [hcv, hpv, hv2, List.countP_append, List.countP_cons, Call.isCreatePipeline]
    · simp only [if_neg hpv]
      by_cases hcf : compiledCode o.fragmentShader fragmentPath EShLanguage.EShLangFragment = []
      · rw [if_pos hcf] at hf1
        subst hf1
        simp [hcf, hcv, hv2, hf2, List.countP_append, List.countP_cons, Call.isCreatePipeline]
      · rw [if_neg hcf] at hf1
        subst hf1
        by_cases hpf : o.fragmentShader.SDL_CreateGPUShader = nullptr
        · simp [hcf, hcv, hpf, hv2, hf2, List.countP_append, List.countP_cons,
            Call.isCreatePipeline]
        · simp only [if_neg hpf]
          by_cases hp : o.SDL_CreateGPUGraphicsPipeline = nullptr
          · simp [hp, hcf, hcv, hpv, hpf, hv2, hf2, List.countP_append, List.countP_cons,
              Call.isCreatePipeline]
          · simp [hp, hcf, hcv, hpv, hpf, hv2, hf2, List.countP_append, List.countP_cons,
              Call.isCreatePipeline]

/-- C2 as stated fails: in each of three runs the device, the window and the
window claim succeed and both compilations succeed, yet no pipeline object is
stored in `app.trianglePipeline`: because `SDL_CreateGPUGraphicsPipeline`
returns null, or because `SDL_CreateGPUShader` returns null for the vertex
or for the fragment shader (then the pipeline call is never made). -/
theorem C2_counterexample :
    (noPipelineInit.SDL_CreateGPUDevice ≠ nullptr ∧ noPipelineInit.SDL_CreateWindow ≠ nullptr
      ∧ noPipelineInit.SDL_ClaimWindowForGPUDevice = true
      ∧ compiledCode noPipelineInit.vertexShader vertexPath EShLanguage.EShLangVertex ≠ []
      ∧ compiledCode noPipelineInit.fragmentShader fragmentPath EShLanguage.EShLangFragment ≠ []
      ∧ (SDL_AppInit noPipelineInit (app : ApplicationContext Int)).2.1.trianglePipeline = nullptr
      ∧ (SDL_AppInit noPipelineInit (app : ApplicationContext Int)).1 = SDL_AppResult.SDL_APP_FAILURE)
    ∧ (noVertexShaderInit.SDL_CreateGPUDevice ≠ nullptr ∧ noVertexShaderInit.SDL_CreateWindow ≠ nullptr
      ∧ noVertexShaderInit.SDL_ClaimWindowForGPUDevice = true
      ∧ compiledCode noVertexShaderInit.vertexShader vertexPath EShLanguage.EShLangVertex ≠ []
      ∧ compiledCode noVertexShaderInit.fragmentShader fragmentPath EShLanguage.EShLangFragment ≠ []
      ∧ (SDL_AppInit noVertexShaderInit (app : ApplicationContext Int)).2.1.trianglePipeline = nullptr
      ∧ (SDL_AppInit noVertexShaderInit (app : ApplicationContext Int)).2.2.countP
          Call.isCreatePipeline = 0)
    ∧ (noFragmentShaderInit.SDL_CreateGPUDevice ≠ nullptr
      ∧ noFragmentShaderInit.SDL_CreateWindow ≠ nullptr
      ∧ noFragmentShaderInit.SDL_ClaimWindowForGPUDevice = true
      ∧ compiledCode noFragmentShaderInit.vertexShader vertexPath EShLanguage.EShLangVertex ≠ []
      ∧ compiledCode noFragmentShaderInit.fragmentShader fragmentPath EShLanguage.EShLangFragment ≠ []
      ∧ (SDL_AppInit noFragmentShaderInit (app : ApplicationContext Int)).2.1.trianglePipeline = nullptr
      ∧ (SDL_AppInit noFragmentShaderInit (app : ApplicationContext Int)).2.2.countP
          Call.isCreatePipeline = 0) := by
  decide

/-- C2 (amended) at the run in which every call succeeds. -/
theorem C2_witness :
    okInit.SDL_Init = true ∧ okInit.SDL_CreateGPUDevice ≠ nullptr
    ∧ okInit.SDL_CreateWindow ≠ nullptr ∧ okInit.SDL_ClaimWindowForGPUDevice = true
    ∧ (SDL_AppInit okInit (app : ApplicationContext Int)).2.2.countP Call.isCreatePipeline = 1
    ∧ (SDL_AppInit okInit (app : ApplicationContext Int)).2.1.trianglePipeline = 13 :=
  ⟨by decide, by decide, by decide, by decide,
    ((C2_pipeline_iff okInit (app : ApplicationContext Int) (by decide) (by decide) (by decide)
      (by decide)).1.2 (by decide)).1,
    ((C2_pipeline_iff okInit (app : ApplicationContext Int) (by decide) (by decide) (by decide)
      (by decide)).1.2 (by decide)).2.1⟩

/-- C3.  A call of `SDL_AppIterate` in which the command buffer is acquired and
the swapchain acquisition succeeds with a non-null texture makes exactly
these calls, in this order: acquire the command buffer, acquire the swapchain
texture, begin one render pass on that texture (load = clear to `(0,0,0,1)`,
store = store), bind the pipeline, set the viewport, set the scissor, one
draw with 3 vertices, 1 instance, first vertex 0, first instance 0, end the
pass, submit the command buffer; and it returns `SDL_APP_CONTINUE`.  So there
is exactly one begin and exactly one draw in the frame. -/
theorem C3_normal_frame {F : Type} [CFloat F] (o : IterateOutcome) (s : ApplicationContext F)
    (hcb : o.SDL_AcquireGPUCommandBuffer ≠ nullptr)
    (hok : o.SDL_AcquireGPUSwapchainTexture = true)
    (htex : o.swapchainTexture ≠ nullptr) :
    SDL_AppIterate o s =
      (SDL_AppResult.SDL_APP_CONTINUE,
        [Call.SDL_AcquireGPUCommandBuffer s.graphicDevice,
         Call.SDL_AcquireGPUSwapchainTexture o.SDL_AcquireGPUCommandBuffer s.window,
         Call.SDL_BeginGPURenderPass o.SDL_AcquireGPUCommandBuffer
           { texture := o.swapchainTexture
             clear_color := { r := CFloat.zero, g := CFloat.zero, b := CFloat.zero, a := CFloat.one }
             load_op := SDL_GPULoadOp.SDL_GPU_LOADOP_CLEAR
             store_op := SDL_GPUStoreOp.SDL_GPU_STOREOP_STORE } 1,
         Call.SDL_BindGPUGraphicsPipeline o.SDL_BeginGPURenderPass s.trianglePipeline,
         Call.SDL_SetGPUViewport o.SDL_BeginGPURenderPass s.viewport,
         Call.SDL_SetGPUScissor o.SDL_BeginGPURenderPass
           { x := 0, y := 0, w := CFloat.toInt s.viewport.w, h := CFloat.toInt s.viewport.h },
         Call.SDL_DrawGPUPrimitives o.SDL_BeginGPURenderPass 3 1 0 0,
         Call.SDL_EndGPURenderPass o.SDL_BeginGPURenderPass,
         Call.SDL_SubmitGPUCommandBuffer o.SDL_AcquireGPUCommandBuffer])
    ∧ (SDL_AppIterate o s).2.countP Call.isBeginRenderPass = 1
    ∧ (SDL_AppIterate o s).2.countP Call.isDraw = 1 := by
  have h : SDL_AppIterate o s = (SDL_AppResult.SDL_APP_CONTINUE,
        [Call.SDL_AcquireGPUCommandBuffer s.graphicDevice,
         Call.SDL_AcquireGPUSwapchainTexture o.SDL_AcquireGPUCommandBuffer s.window,
         Call.SDL_BeginGPURenderPass o.SDL_AcquireGPUCommandBuffer
           { texture := o.swapchainTexture
             clear_color := { r := CFloat.zero, g := CFloat.zero, b := CFloat.zero, a := CFloat.one }
             load_op := SDL_GPULoadOp.SDL_GPU_LOADOP_CLEAR
             store_op := SDL_GPUStoreOp.SDL_GPU_STOREOP_STORE } 1,
         Call.SDL_BindGPUGraphicsPipeline o.SDL_BeginGPURenderPass s.trianglePipeline,
         Call.SDL_SetGPUViewport o.SDL_BeginGPURenderPass s.viewport,
         Call.SDL_SetGPUScissor o.SDL_BeginGPURenderPass
           { x := 0, y := 0, w := CFloat.toInt s.viewport.w, h := CFloat.toInt s.viewport.h },
         Call.SDL_DrawGPUPrimitives o.SDL_BeginGPURenderPass 3 1 0 0,
         Call.SDL_EndGPURenderPass o.SDL_BeginGPURenderPass,
         Call.SDL_SubmitGPUCommandBuffer o.SDL_AcquireGPUCommandBuffer]) := by
    simp [SDL_AppIterate, hcb, hok, htex]
  refine ⟨h, ?_, ?_⟩ <;> rw [h] <;> simp [List.countP_cons, Call.isBeginRenderPass, Call.isDraw]

/-- C3 at a concrete frame. -/
theorem C3_normal_frame_witness :
    frameOutcome.SDL_AcquireGPUCommandBuffer ≠ nullptr
    ∧ frameOutcome.SDL_AcquireGPUSwapchainTexture = true
    ∧ frameOutcome.swapchainTexture ≠ nullptr
    ∧ (SDL_AppIterate frameOutcome resizeExample).1 = SDL_AppResult.SDL_APP_CONTINUE
    ∧ (SDL_AppIterate frameOutcome resizeExample).2.countP Call.isDraw = 1 :=
  ⟨by decide, by decide, by decide,
    congrArg Prod.fst (C3_normal_frame frameOutcome resizeExample (by decide) (by decide) (by decide)).1,
    (C3_normal_frame frameOutcome resizeExample (by decide) (by decide) (by decide)).2.2⟩

/-- C4.  A call of `SDL_AppIterate` whose swapchain acquisition succeeds with a
null texture makes exactly three calls (acquire the command buffer, acquire
the swapchain texture, submit the command buffer): no render pass is begun,
nothing is drawn, the command buffer is submitted once, and the call returns
`SDL_APP_CONTINUE`. -/
theorem C4_no_image_frame {F : Type} [CFloat F] (o : IterateOutcome) (s : ApplicationContext F)
    (hcb : o.SDL_AcquireGPUCommandBuffer ≠ nullptr)
    (hok : o.SDL_AcquireGPUSwapchainTexture = true)
    (htex : o.swapchainTexture = nullptr) :
    SDL_AppIterate o s =
      (SDL_AppResult.SDL_APP_CONTINUE,
        [Call.SDL_AcquireGPUCommandBuffer s.graphicDevice,
         Call.SDL_AcquireGPUSwapchainTexture o.SDL_AcquireGPUCommandBuffer s.window,
         Call.SDL_SubmitGPUCommandBuffer o.SDL_AcquireGPUCommandBuffer])
    ∧ (SDL_AppIterate o s).2.countP Call.isBeginRenderPass = 0
    ∧ (SDL_AppIterate o s).2.countP Call.isDraw = 0
    ∧ (SDL_AppIterate o s).2.countP (Call.isSubmit o.SDL_AcquireGPUCommandBuffer) = 1 := by
  have h : SDL_AppIterate o s = (SDL_AppResult.SDL_APP_CONTINUE,
        [Call.SDL_AcquireGPUCommandBuffer s.graphicDevice,
         Call.SDL_AcquireGPUSwapchainTexture o.SDL_AcquireGPUCommandBuffer s.window,
         Call.SDL_SubmitGPUCommandBuffer o.SDL_AcquireGPUCommandBuffer]) := by
    simp [SDL_AppIterate, hcb, hok, htex]
  refine ⟨h, ?_, ?_, ?_⟩ <;> rw [h] <;>
    simp [List.countP_cons, Call.isBeginRenderPass, Call.isDraw, Call.isSubmit]

/-- C4 at a concrete frame. -/
theorem C4_no_image_frame_witness :
    noImageOutcome.SDL_AcquireGPUCommandBuffer ≠ nullptr
    ∧ noImageOutcome.SDL_AcquireGPUSwapchainTexture = true
    ∧ noImageOutcome.swapchainTexture = nullptr
    ∧ (SDL_AppIterate noImageOutcome resizeExample).1 = SDL_AppResult.SDL_APP_CONTINUE
    ∧ (SDL_AppIterate noImageOutcome resizeExample).2.countP Call.isDraw = 0 :=
  ⟨by decide, by decide, by decide,
    congrArg Prod.fst (C4_no_image_frame noImageOutcome resizeExample (by decide) (by decide) (by decide)).1,
    (C4_no_image_frame noImageOutcome resizeExample (by decide) (by decide) (by decide)).2.2.1⟩

/-- C5.  For every application state and every resize notification
`(newWidth, newHeight)`, `SDL_AppEvent` returns `SDL_APP_CONTINUE`.  If the
notified dimensions differ from the state's `width`/`height`, these become
`(newWidth, newHeight)`, the viewport's `w`/`h` become their conversions to
`float`, and the viewport's `x`, `y`, `min_depth`, `max_depth` and the window,
device and pipeline handles keep their values.  If they are equal, the whole
state is unchanged. -/
theorem C5_resize {F : Type} [CFloat F] (s : ApplicationContext F) (newWidth newHeight : Int) :
    (SDL_AppEvent s (SDL_Event.SDL_EVENT_WINDOW_RESIZED newWidth newHeight)).1
      = SDL_AppResult.SDL_APP_CONTINUE
    ∧ ((s.width ≠ newWidth ∨ s.height ≠ newHeight) →
        let s1 := (SDL_AppEvent s (SDL_Event.SDL_EVENT_WINDOW_RESIZED newWidth newHeight)).2
        s1.width = newWidth ∧ s1.height = newHeight
        ∧ s1.viewport.w = CFloat.ofInt newWidth ∧ s1.viewport.h = CFloat.ofInt newHeight
        ∧ s1.viewport.x = s.viewport.x ∧ s1.viewport.y = s.viewport.y
        ∧ s1.viewport.min_depth = s.viewport.min_depth
        ∧ s1.viewport.max_depth = s.viewport.max_depth
        ∧ s1.window = s.window ∧ s1.graphicDevice = s.graphicDevice
        ∧ s1.trianglePipeline = s.trianglePipeline)
    ∧ ((s.width = newWidth ∧ s.height = newHeight) →
        (SDL_AppEvent s (SDL_Event.SDL_EVENT_WINDOW_RESIZED newWidth newHeight)).2 = s) := by
  refine ⟨?_, ?_, ?_⟩
  · unfold SDL_AppEvent
    by_cases h : s.width ≠ newWidth ∨ s.height ≠ newHeight <;> simp [h]
  · intro h
    simp only [SDL_AppEvent, if_pos h]
    simp
  · intro h
    have h2 : ¬ (s.width ≠ newWidth ∨ s.height ≠ newHeight) := by
      rintro (h1 | h1)
      · exact h1 h.1
      · exact h1 h.2
    simp only [SDL_AppEvent, if_neg h2]

/-- C5 at the example of the claim: from `(1920, 1080)` with depth range
`(0.0, 1.0)`, a resize to `(800, 600)` gives width/height and viewport
`w`/`h` `(800, 600)` and leaves the depth range `(0.0, 1.0)`. -/
theorem C5_resize_witness :
    (resizeExample.width ≠ 800 ∨ resizeExample.height ≠ 600)
    ∧ (SDL_AppEvent resizeExample (SDL_Event.SDL_EVENT_WINDOW_RESIZED 800 600)).2.width = 800
    ∧ (SDL_AppEvent resizeExample (SDL_Event.SDL_EVENT_WINDOW_RESIZED 800 600)).2.height = 600
    ∧ (SDL_AppEvent resizeExample (SDL_Event.SDL_EVENT_WINDOW_RESIZED 800 600)).2.viewport.w = 800
    ∧ (SDL_AppEvent resizeExample (SDL_Event.SDL_EVENT_WINDOW_RESIZED 800 600)).2.viewport.h = 600
    ∧ (SDL_AppEvent resizeExample (SDL_Event.SDL_EVENT_WINDOW_RESIZED 800 600)).2.viewport.min_depth = 0
    ∧ (SDL_AppEvent resizeExample (SDL_Event.SDL_EVENT_WINDOW_RESIZED 800 600)).2.viewport.max_depth = 1 := by
  have hne : resizeExample.width ≠ 800 ∨ resizeExample.height ≠ 600 := Or.inl (by decide)
  have h := (C5_resize resizeExample 800 600).2.1 hne
  exact ⟨hne, h.1, h.2.1, h.2.2.1, h.2.2.2.1, h.2.2.2.2.2.2.1, h.2.2.2.2.2.2.2.1⟩

/-- C6, evaluated at a failing run.  `SDL_AppInit` succeeds with the window
reporting 1280 x 720 pixels, so the viewport is 1280 x 720 while
`app.width`/`app.height` stay 1920 x 1080.  The resize notification
`(1920, 1080)` that follows is taken for "no change": the viewport stays
1280 x 720 and is not the size carried by the latest notification. -/
theorem C6_stale_viewport :
    (SDL_AppInit smallWindowInit (app : ApplicationContext Int)).1 = SDL_AppResult.SDL_APP_CONTINUE
    ∧ (SDL_AppInit smallWindowInit (app : ApplicationContext Int)).2.1.viewport.w = 1280
    ∧ (SDL_AppInit smallWindowInit (app : ApplicationContext Int)).2.1.viewport.h = 720
    ∧ (handleEvents (SDL_AppInit smallWindowInit (app : ApplicationContext Int)).2.1
        [SDL_Event.SDL_EVENT_WINDOW_RESIZED 1920 1080]).viewport.w = 1280
    ∧ (handleEvents (SDL_AppInit smallWindowInit (app : ApplicationContext Int)).2.1
        [SDL_Event.SDL_EVENT_WINDOW_RESIZED 1920 1080]).viewport.h = 720
    ∧ (handleEvents (SDL_AppInit smallWindowInit (app : ApplicationContext Int)).2.1
        [SDL_Event.SDL_EVENT_WINDOW_RESIZED 1920 1080]).viewport.w ≠ 1920
    ∧ (handleEvents (SDL_AppInit smallWindowInit (app : ApplicationContext Int)).2.1
        [SDL_Event.SDL_EVENT_WINDOW_RESIZED 1920 1080]).viewport.h ≠ 1080 := by
  decide

/-- C7.  For every application state `SDL_AppQuit` makes exactly four calls, in
this order: release the pipeline, release the window from the device,
destroy the window, destroy the device.  The pipeline is released once and
the device destroyed once, as the last call. -/
theorem C7_quit_order {F : Type} (s : ApplicationContext F) :
    SDL_AppQuit s =
      [Call.SDL_ReleaseGPUGraphicsPipeline s.graphicDevice s.trianglePipeline,
       Call.SDL_ReleaseWindowFromGPUDevice s.graphicDevice s.window,
       Call.SDL_DestroyWindow s.window,
       Call.SDL_DestroyGPUDevice s.graphicDevice]
    ∧ (SDL_AppQuit s).countP Call.isReleasePipeline = 1
    ∧ (SDL_AppQuit s).countP Call.isDestroyDevice = 1
    ∧ (SDL_AppQuit s).getLast? = some (Call.SDL_DestroyGPUDevice s.graphicDevice) := by
  refine ⟨rfl, ?_, ?_, ?_⟩ <;>
    simp [SDL_AppQuit, List.countP_cons, Call.isReleasePipeline, Call.isDestroyDevice]

/-- C8, amended.  For every source text and stage and on every exit path, the
first call of `compileGLSLtoSPIRV` is the process-wide initialization
`glslang::InitializeProcess`, so it precedes every parse and link step; the
process-wide finalization `glslang::FinalizeProcess` is not called on any
path. -/
theorem C8_init_first_no_finalize {F : Type} (o : GlslangOutcome) (name source : List Char)
    (stage : EShLanguage) :
    (∃ rest : List (Call F),
      (compileGLSLtoSPIRV o name source stage).2 = Call.glslang_InitializeProcess :: rest)
    ∧ Call.glslang_FinalizeProcess ∉
        (compileGLSLtoSPIRV o name source stage : List Word32 × List (Call F)).2 := by
  obtain ⟨rest, h1, _, h3⟩ := compileGLSLtoSPIRV_trace (F := F) o name source stage
  refine ⟨⟨rest, h1⟩, ?_⟩
  rw [h1]
  simp [h3]

/-- C8 as stated fails: a successful compilation returns its two words of
bytecode without `glslang::FinalizeProcess` having been called. -/
theorem C8_counterexample :
    (compileGLSLtoSPIRV okGlslang "a.vert".toList "#version 450".toList EShLanguage.EShLangVertex :
        List Word32 × List (Call Int)).1 = [119734787, 65536]
    ∧ Call.glslang_FinalizeProcess ∉
      (compileGLSLtoSPIRV okGlslang "a.vert".toList "#version 450".toList EShLanguage.EShLangVertex :
        List Word32 × List (Call Int)).2 := by
  decide

/-- C9, amended.  In a call of `SDL_AppIterate` that acquired its command
buffer: if the swapchain acquisition reports success (with or without a
texture) the command buffer is submitted exactly once, as the last call, and
the result is `SDL_APP_CONTINUE`; if it reports failure the command buffer is
not submitted and the result is `SDL_APP_FAILURE`.  Hence every call that
returns `SDL_APP_CONTINUE` has submitted its command buffer exactly once. -/
theorem C9_submit {F : Type} [CFloat F] (o : IterateOutcome) (s : ApplicationContext F)
    (hcb : o.SDL_AcquireGPUCommandBuffer ≠ nullptr) :
    (o.SDL_AcquireGPUSwapchainTexture = true →
      (SDL_AppIterate o s).2.countP (Call.isSubmit o.SDL_AcquireGPUCommandBuffer) = 1
      ∧ (SDL_AppIterate o s).2.getLast?
          = some (Call.SDL_SubmitGPUCommandBuffer o.SDL_AcquireGPUCommandBuffer)
      ∧ (SDL_AppIterate o s).1 = SDL_AppResult.SDL_APP_CONTINUE)
    ∧ (o.SDL_AcquireGPUSwapchainTexture = false →
      (SDL_AppIterate o s).2.countP (Call.isSubmit o.SDL_AcquireGPUCommandBuffer) = 0
      ∧ (SDL_AppIterate o s).1 = SDL_AppResult.SDL_APP_FAILURE)
    ∧ ((SDL_AppIterate o s).1 = SDL_AppResult.SDL_APP_CONTINUE →
      (SDL_AppIterate o s).2.countP (Call.isSubmit o.SDL_AcquireGPUCommandBuffer) = 1) := by
  have hcb0 : ¬ o.SDL_AcquireGPUCommandBuffer = nullptr := hcb
  unfold SDL_AppIterate
  simp only [if_neg hcb0]
  cases hsw : o.SDL_AcquireGPUSwapchainTexture
  · simp [List.countP_cons, Call.isSubmit]
  · by_cases htex : o.swapchainTexture = nullptr
    · simp [htex, List.countP_cons, Call.isSubmit]
    · simp [htex, List.countP_cons, Call.isSubmit, List.getLast?_cons_cons]

/-- C9 (amended) at a frame in which every device call succeeds. -/
theorem C9_submit_witness :
    frameOutcome.SDL_AcquireGPUCommandBuffer ≠ nullptr
    ∧ frameOutcome.SDL_AcquireGPUSwapchainTexture = true
    ∧ (SDL_AppIterate frameOutcome resizeExample).2.countP
        (Call.isSubmit frameOutcome.SDL_AcquireGPUCommandBuffer) = 1 :=
  ⟨by decide, by decide, ((C9_submit frameOutcome resizeExample (by decide)).1 (by decide)).1⟩

/-- C9 as stated fails: the command buffer is acquired, the swapchain
acquisition reports failure, and the call returns `SDL_APP_FAILURE` with the
command buffer never submitted. -/
theorem C9_counterexample :
    swapchainFailure.SDL_AcquireGPUCommandBuffer ≠ nullptr
    ∧ (SDL_AppIterate swapchainFailure resizeExample).2.countP
        (Call.isSubmit swapchainFailure.SDL_AcquireGPUCommandBuffer) = 0
    ∧ (SDL_AppIterate swapchainFailure resizeExample).1 = SDL_AppResult.SDL_APP_FAILURE := by
  decide

/-- C10, evaluated at the path `x.glsl` with a successful compilation and
shader creation: `loadShader` returns the shader and has called
`SDL_CreateGPUShader` with the two words of bytecode, `code_size` 8, entry
point `main`, all counts zero, and a `stage` that was never assigned. -/
theorem C10_unknown_suffix :
    (loadShader okLoad 12 "x.glsl".toList 0 0 0 0 : Ptr × List (Call Int)).1 = 31
    ∧ Call.SDL_CreateGPUShader 12
        { code_size := 8
          code := [119734787, 65536]
          entrypoint := "main"
          stage := none
          num_samplers := 0
          num_storage_textures := 0
          num_storage_buffers := 0
          num_uniform_buffers := 0 }
      ∈ (loadShader okLoad 12 "x.glsl".toList 0 0 0 0 : Ptr × List (Call Int)).2 := by
  decide

end Triangle
